import Mathlib

/-!
Shallow embedding of `src/router.js` (Vihrogon/deno-router): a minimal HTTP
router with a per-method registry of (path pattern, handler) pairs, a
registration validator, a static-file convenience registration, and a
dispatch loop mapping match/handler outcomes to 200/404/405/500 statuses.

JS `Map` values keyed by strings are modelled as ordered association lists
(insertion order preserved; `set` on an existing key updates in place).
Async functions are modelled as `Except`-valued functions: a thrown error or
rejected promise is `Except.error`, a resolved value is `Except.ok`.
The platform `URLPattern` collaborator is a parameter (`URLPatternLib`)
providing `test` and `exec`, and `Deno.open` is a parameter (`Fs`).
-/

namespace DenoRouter

/-- An inbound request: the router reads `req.method` and `req.url`. -/
structure Request where
  method : String
  url : String
deriving DecidableEq, Repr

/-- An outbound response: `new Response(body, { status, headers })`.
`body = none` models a `null` body. -/
structure Response where
  status : Nat
  body : Option String
  headers : List (String × String)
deriving DecidableEq, Repr

/-- The `groups` object produced by `URLPattern.exec(...).pathname.groups`:
a mapping from capture name to captured string. -/
abbrev Params := List (String × String)

/-- The context object `{ req, params }` passed to a handler. `params` is
`Option`-valued because the source computes it with `url.exec(req.url)?.`,
which can leave it `undefined`. -/
structure Ctx where
  req : Request
  params : Option Params

/-- A thrown JS error (its message). -/
abbrev JSError := String

/-- A registered handler: may return a response or throw/reject. -/
abbrev Handler := Ctx → Except JSError Response

/-- A JS value supplied as a `pathname` argument: either a string or any
non-string value (number, undefined, object, ...). -/
inductive JSValue where
  | str (s : String)
  | nonString

/-- `Map.prototype.get` on a string-keyed ordered map. -/
def mapGet (k : String) : List (String × α) → Option α
  | [] => none
  | (k₁, v) :: rest => if k₁ = k then some v else mapGet k rest

/-- `Map.prototype.set`: update in place if the key is present (keeping its
position in iteration order), otherwise append at the end. -/
def mapSet (k : String) (v : α) : List (String × α) → List (String × α)
  | [] => [(k, v)]
  | (k₁, v₁) :: rest => if k₁ = k then (k, v) :: rest else (k₁, v₁) :: mapSet k v rest

/-- `Map.prototype.has`. -/
def mapHas (k : String) (m : List (String × α)) : Bool :=
  (mapGet k m).isSome

/-- The `#routes` field: method name ↦ ordered (pathname ↦ handler) table. -/
abbrev Registry := List (String × List (String × Handler))

/-- `#routes = new Map([["GET", new Map()], ["POST", new Map()]])`. -/
def emptyRouter : Registry := [("GET", []), ("POST", [])]

/-- The guard in `#add`: `typeof pathname !== "string" || pathname === ""`. -/
def isInvalidPathname : JSValue → Bool
  | .str s => s = ""
  | .nonString => true

/-- The string content of a pathname value (only used once validated). -/
def pathnameStr : JSValue → String
  | .str s => s
  | .nonString => ""

/-- `Router.#add(method, pathname, handler)`. Returns the updated registry
together with the thrown error, if any (`none` = returned normally).
`this.#routes.get(method)?.set(pathname, handler)` is a no-op when the
method key is absent. -/
def Router.add (method : String) (pathname : JSValue) (handler : Handler)
    (routes : Registry) : Registry × Option JSError :=
  if isInvalidPathname pathname then
    (routes, some "Invalid pathname")
  else
    match mapGet method routes with
    | some table => (mapSet method (mapSet (pathnameStr pathname) handler table) routes, none)
    | none => (routes, none)

/-- `Router.get(pathname, handler)`. -/
def Router.get (pathname : JSValue) (handler : Handler) (routes : Registry) :
    Registry × Option JSError :=
  Router.add "GET" pathname handler routes

/-- `Router.post(pathname, handler)`. -/
def Router.post (pathname : JSValue) (handler : Handler) (routes : Registry) :
    Registry × Option JSError :=
  Router.add "POST" pathname handler routes

/-- The `Deno.open` filesystem collaborator: open-for-read by path, yielding
the file's byte stream (modelled as its content) or a failure. -/
structure Fs where
  openRead : String → Except JSError String

/-- The handler constructed by `Router.static`: opens
`./${foldername}/ + params.path` and streams it, with a local
`try/catch` converting any failure into a 404 "Not Found" response.
`params.path` when `params` is `undefined` throws a TypeError (caught by
the same `try`); when `params` exists but has no `path` key, JS string
concatenation coerces `undefined` to the string "undefined". -/
def staticHandler (foldername : String) (fs : Fs) : Handler := fun ctx =>
  let attempt : Except JSError Response := do
    let ps ← match ctx.params with
      | some ps => Except.ok ps
      | none => Except.error "TypeError: Cannot read properties of undefined"
    let path := (mapGet "path" ps).getD "undefined"
    let content ← fs.openRead ("./" ++ foldername ++ "/" ++ path)
    let headers := if path.endsWith ".js" then [("content-type", "text/javascript")] else []
    Except.ok { status := 200, body := some content, headers := headers }
  match attempt with
  | .ok r => Except.ok r
  | .error _ => Except.ok { status := 404, body := some "Not Found", headers := [] }

/-- `Router.static(pathname, foldername)`: registers the static handler
under GET at the trailing-capture pattern `${pathname}/:path*`. -/
def Router.static (pathname foldername : String) (fs : Fs) (routes : Registry) :
    Registry × Option JSError :=
  Router.add "GET" (JSValue.str (pathname ++ "/:path*")) (staticHandler foldername fs) routes

/-- The platform `URLPattern` collaborator, per the spec's interface: given a
pattern and a URL, `test` says whether it matches and `exec` yields the
captured groups. -/
structure URLPatternLib where
  test : String → String → Bool
  exec : String → String → Option Params

/-- The `for (const [pathname, handler] of ...)` loop body of `Router.route`,
threading the mutable `status` variable. A match returns the handler's
response; a thrown handler error is caught, setting `status = 500`; a
non-match sets `status = 404`; loop exhaustion returns
`new Response(null, { status })`. -/
def routeLoop (lib : URLPatternLib) (req : Request) :
    List (String × Handler) → Nat → Except JSError Response
  | [], status => Except.ok { status := status, body := none, headers := [] }
  | (pathname, handler) :: rest, _status =>
    if lib.test pathname req.url then
      match handler { req := req, params := lib.exec pathname req.url } with
      | Except.ok resp => Except.ok resp
      | Except.error _ => routeLoop lib req rest 500
    else
      routeLoop lib req rest 404

/-- `Router.route(req)`: `status` starts at 405; the loop runs only when the
request's method has an entry in the registry. As an `async` function its
result is `Except`-valued: `Except.error` would be a rejection escaping to
the caller. -/
def Router.route (lib : URLPatternLib) (routes : Registry) (req : Request) :
    Except JSError Response :=
  match mapGet req.method routes with
  | some table => routeLoop lib req table 405
  | none => Except.ok { status := 405, body := none, headers := [] }

/-- An entry the dispatch loop passes over without returning: either its
pattern does not match the URL, or it matches and its handler throws. -/
def skipped (lib : URLPatternLib) (req : Request) (e : String × Handler) : Prop :=
  lib.test e.1 req.url = false ∨
    (lib.test e.1 req.url = true ∧
      ∃ err, e.2 { req := req, params := lib.exec e.1 req.url } = Except.error err)

/-- A registry whose method keys all lie in the fixed supported set, as holds
for every registry reachable from `emptyRouter` (`#add` never adds keys). -/
def WellFormed (routes : Registry) : Prop :=
  ∀ m, mapHas m routes = true → m = "GET" ∨ m = "POST"

/- ### Concrete fixtures used by witnesses and counterexamples -/

/-- A handler that always throws. -/
def hThrow : Handler := fun _ => Except.error "TEST"

/-- A handler that always returns the given response. -/
def hConst (r : Response) : Handler := fun _ => Except.ok r

/-- Empty-body response with a given status. -/
def emptyResp (status : Nat) : Response :=
  { status := status, body := none, headers := [] }

/-- A pattern library for fixtures: pattern `p` matches URL `u` exactly when
`(p, u)` is listed, and then yields the listed groups. -/
def tableLib (rows : List ((String × String) × Params)) : URLPatternLib where
  test p u := rows.any fun row => row.1.1 == p && row.1.2 == u
  exec p u := (rows.find? fun row => row.1.1 == p && row.1.2 == u).map (·.2)

/-- A url matched by both `/a` and `/b` in `libTwo`. -/
def urlA : String := "http://localhost/a"

/-- Fixture request: GET on `urlA`. -/
def reqA : Request := { method := "GET", url := urlA }

/-- Fixture library: `/a` and `/b` both match `urlA`; nothing else matches. -/
def libTwo : URLPatternLib :=
  tableLib [(("/a", urlA), []), (("/b", urlA), [("x", "1")])]

/-- Fixture library: only `/a` matches `urlA`. -/
def libOne : URLPatternLib := tableLib [(("/a", urlA), [])]

/-- Fixture library: nothing ever matches. -/
def libNone : URLPatternLib := tableLib []

/-- Fixture success response of a later handler. -/
def respLater : Response := { status := 200, body := some "later", headers := [] }

/-- Fixture filesystem on which every open fails. -/
def fsFail : Fs := { openRead := fun _ => Except.error "NotFound" }

/- ### Helper lemmas about the dispatch loop and the map operations -/

theorem routeLoop_isOk (lib : URLPatternLib) (req : Request) :
    ∀ (table : List (String × Handler)) (status : Nat),
      ∃ resp, routeLoop lib req table status = Except.ok resp := by
  intro table
  induction table with
  | nil => exact fun status => ⟨_, rfl⟩
  | cons e rest ih =>
    intro status
    obtain ⟨p, h⟩ := e
    unfold routeLoop
    split
    · split
      · exact ⟨_, rfl⟩
      · exact ih 500
    · exact ih 404

theorem routeLoop_skip (lib : URLPatternLib) (req : Request)
    (rest : List (String × Handler)) :
    ∀ (pre : List (String × Handler)) (status : Nat),
      (∀ e ∈ pre, skipped lib req e) →
      ∃ s₁, routeLoop lib req (pre ++ rest) status = routeLoop lib req rest s₁ := by
  intro pre
  induction pre with
  | nil => exact fun status _ => ⟨status, rfl⟩
  | cons e pre ih =>
    intro status hskip
    obtain ⟨p, h⟩ := e
    have he : skipped lib req (p, h) := hskip _ (List.mem_cons_self _ _)
    have htail : ∀ x ∈ pre, skipped lib req x :=
      fun x hx => hskip x (List.mem_cons_of_mem _ hx)
    dsimp only [skipped] at he
    rcases he with hfalse | ⟨htrue, err, herr⟩
    · simpa [routeLoop, hfalse] using ih 404 htail
    · simpa [routeLoop, htrue, herr] using ih 500 htail

theorem routeLoop_match_ok (lib : URLPatternLib) (req : Request)
    (p : String) (h : Handler) (rest : List (String × Handler))
    (status : Nat) (resp : Response)
    (hmatch : lib.test p req.url = true)
    (hok : h { req := req, params := lib.exec p req.url } = Except.ok resp) :
    routeLoop lib req ((p, h) :: rest) status = Except.ok resp := by
  simp [routeLoop, hmatch, hok]

theorem routeLoop_match_err (lib : URLPatternLib) (req : Request)
    (p : String) (h : Handler) (rest : List (String × Handler))
    (status : Nat) (err : JSError)
    (hmatch : lib.test p req.url = true)
    (herr : h { req := req, params := lib.exec p req.url } = Except.error err) :
    routeLoop lib req ((p, h) :: rest) status = routeLoop lib req rest 500 := by
  simp [routeLoop, hmatch, herr]

theorem routeLoop_nomatch (lib : URLPatternLib) (req : Request) :
    ∀ (table : List (String × Handler)),
      table ≠ [] →
      (∀ e ∈ table, lib.test e.1 req.url = false) →
      ∀ status, routeLoop lib req table status = Except.ok (emptyResp 404) := by
  intro table
  induction table with
  | nil => exact fun hne _ => absurd rfl hne
  | cons e rest ih =>
    intro _ hnm status
    obtain ⟨p, h⟩ := e
    have hp : lib.test p req.url = false := hnm _ (List.mem_cons_self _ _)
    have htail : ∀ x ∈ rest, lib.test x.1 req.url = false :=
      fun x hx => hnm x (List.mem_cons_of_mem _ hx)
    cases rest with
    | nil => simp [routeLoop, hp, emptyResp]
    | cons f rest₁ => simpa [routeLoop, hp] using ih (by simp) htail 404

theorem mapGet_mapSet_self (k : String) (v : α) :
    ∀ m : List (String × α), mapGet k (mapSet k v m) = some v := by
  intro m
  induction m with
  | nil => simp [mapGet, mapSet]
  | cons e rest ih =>
    obtain ⟨k₁, v₁⟩ := e
    by_cases hk : k₁ = k
    · simp [mapGet, mapSet, hk]
    · simp [mapGet, mapSet, hk, ih]

theorem mapGet_mapSet_ne (k k₂ : String) (v : α) (hne : k₂ ≠ k) :
    ∀ m : List (String × α), mapGet k₂ (mapSet k v m) = mapGet k₂ m := by
  have hne₁ : k ≠ k₂ := Ne.symm hne
  intro m
  induction m with
  | nil => simp [mapGet, mapSet, hne₁]
  | cons e rest ih =>
    obtain ⟨k₁, v₁⟩ := e
    by_cases hk : k₁ = k
    · subst hk
      simp [mapGet, mapSet, hne₁]
    · simp [mapGet, mapSet, hk, ih]

theorem mapSet_present (k : String) (v vOld : α) :
    ∀ (pre post : List (String × α)), (∀ e ∈ pre, e.1 ≠ k) →
      mapSet k v (pre ++ (k, vOld) :: post) = pre ++ (k, v) :: post := by
  intro pre
  induction pre with
  | nil => intro post _; simp [mapSet]
  | cons e pre ih =>
    intro post hfresh
    obtain ⟨k₁, v₁⟩ := e
    have hk : k₁ ≠ k := hfresh _ (List.mem_cons_self _ _)
    have htail : ∀ x ∈ pre, x.1 ≠ k := fun x hx => hfresh x (List.mem_cons_of_mem _ hx)
    simp [mapSet, hk, ih post htail]

/- ### Claim theorems -/

/-- C1: for every router state and every request, the dispatch operation
`route(request)` always resolves to a response and never raises: no error
propagates to the caller of `route` (the `Except`-valued result is always
`Except.ok`). -/
theorem C1_route_always_resolves (lib : URLPatternLib) (routes : Registry) (req : Request) :
    ∃ resp, Router.route lib routes req = Except.ok resp := by
  cases hget : mapGet req.method routes with
  | some table =>
    simp only [Router.route, hget]
    exact routeLoop_isOk lib req table 405
  | none =>
    simp only [Router.route, hget]
    exact ⟨_, rfl⟩

/-- C2: route tests the patterns of the request's method in registration
order; at the first pattern that matches the URL it extracts the captured
params, invokes that handler with `{ req, params }`, and returns the
handler's response directly — no later pattern (in `post`) influences the
result, regardless of the match's position. -/
theorem C2_first_match_wins (lib : URLPatternLib) (routes : Registry) (req : Request)
    (table pre post : List (String × Handler)) (p : String) (h : Handler) (resp : Response)
    (htable : mapGet req.method routes = some table)
    (hsplit : table = pre ++ (p, h) :: post)
    (hpre : ∀ e ∈ pre, lib.test e.1 req.url = false)
    (hmatch : lib.test p req.url = true)
    (hok : h { req := req, params := lib.exec p req.url } = Except.ok resp) :
    Router.route lib routes req = Except.ok resp := by
  simp only [Router.route, htable]
  subst hsplit
  obtain ⟨s₁, hs⟩ :=
    routeLoop_skip lib req ((p, h) :: post) pre 405 (fun e he => Or.inl (hpre e he))
  rw [hs]
  exact routeLoop_match_ok lib req p h post s₁ resp hmatch hok

/-- Witness for C2: a single registered GET pattern matching the request
returns its handler's response. -/
theorem C2_first_match_wins_witness :
    Router.route libOne (Router.get (JSValue.str "/a") (hConst respLater) emptyRouter).1 reqA =
      Except.ok respLater := by
  exact C2_first_match_wins libOne _ reqA [("/a", hConst respLater)] [] []
    "/a" (hConst respLater) respLater rfl rfl (fun e he => absurd he (List.not_mem_nil e))
    (by decide) rfl

/-- C3: when an earlier pattern matches but its handler throws (or rejects),
and a later pattern also matches and its handler succeeds (no pattern in
between matching), route returns the later handler's successful response,
not a 500. -/
theorem C3_later_success_after_failed_handler (lib : URLPatternLib) (routes : Registry)
    (req : Request) (table pre mid post : List (String × Handler))
    (p₁ p₂ : String) (h₁ h₂ : Handler) (err : JSError) (resp : Response)
    (htable : mapGet req.method routes = some table)
    (hsplit : table = pre ++ (p₁, h₁) :: (mid ++ (p₂, h₂) :: post))
    (hpre : ∀ e ∈ pre, lib.test e.1 req.url = false)
    (hmatch₁ : lib.test p₁ req.url = true)
    (herr : h₁ { req := req, params := lib.exec p₁ req.url } = Except.error err)
    (hmid : ∀ e ∈ mid, lib.test e.1 req.url = false)
    (hmatch₂ : lib.test p₂ req.url = true)
    (hok : h₂ { req := req, params := lib.exec p₂ req.url } = Except.ok resp) :
    Router.route lib routes req = Except.ok resp := by
  simp only [Router.route, htable]
  subst hsplit
  obtain ⟨s₁, hs⟩ :=
    routeLoop_skip lib req ((p₁, h₁) :: (mid ++ (p₂, h₂) :: post)) pre 405
      (fun e he => Or.inl (hpre e he))
  rw [hs, routeLoop_match_err lib req p₁ h₁ (mid ++ (p₂, h₂) :: post) s₁ err hmatch₁ herr]
  obtain ⟨s₂, hs₂⟩ :=
    routeLoop_skip lib req ((p₂, h₂) :: post) mid 500 (fun e he => Or.inl (hmid e he))
  rw [hs₂]
  exact routeLoop_match_ok lib req p₂ h₂ post s₂ resp hmatch₂ hok

/-- Witness for C3: `/a` (throwing handler) registered before `/b`
(succeeding handler), both matching the request URL — the later success is
returned. -/
theorem C3_later_success_after_failed_handler_witness :
    Router.route libTwo
      (Router.get (JSValue.str "/b") (hConst respLater)
        (Router.get (JSValue.str "/a") hThrow emptyRouter).1).1 reqA =
      Except.ok respLater := by
  exact C3_later_success_after_failed_handler libTwo _ reqA
    [("/a", hThrow), ("/b", hConst respLater)] [] [] [] "/a" "/b" hThrow (hConst respLater)
    "TEST" respLater rfl rfl (fun e he => absurd he (List.not_mem_nil e)) (by decide) rfl
    (fun e he => absurd he (List.not_mem_nil e)) (by decide) rfl

/-- C4 counterexample: with GET registrations `[/a ↦ throwing, /b ↦ ok]`
and a request matched by `/a` but not by `/b` (so a pattern matches, its
handler raises, and no subsequent pattern matches), route returns status
404, not the 500 the claim predicts: the non-matching `/b` iteration
overwrites `status = 500` with `status = 404`. -/
theorem C4_counterexample :
    libOne.test "/a" reqA.url = true ∧
    hThrow { req := reqA, params := libOne.exec "/a" reqA.url } = Except.error "TEST" ∧
    libOne.test "/b" reqA.url = false ∧
    Router.route libOne
      (Router.get (JSValue.str "/b") (hConst respLater)
        (Router.get (JSValue.str "/a") hThrow emptyRouter).1).1 reqA =
      Except.ok (emptyResp 404) ∧
    Router.route libOne
      (Router.get (JSValue.str "/b") (hConst respLater)
        (Router.get (JSValue.str "/a") hThrow emptyRouter).1).1 reqA ≠
      Except.ok (emptyResp 500) := by
  refine ⟨by decide, rfl, by decide, rfl, ?_⟩
  intro hcontra
  have h404 : Router.route libOne
      (Router.get (JSValue.str "/b") (hConst respLater)
        (Router.get (JSValue.str "/a") hThrow emptyRouter).1).1 reqA =
      Except.ok (emptyResp 404) := rfl
  rw [h404] at hcontra
  simp [emptyResp] at hcontra

/-- C4 (amended): when a pattern matches the request URL but its handler
raises and the failing match is the last entry of the method's table (every
earlier entry either did not match or matched with a throwing handler — a
subsequent non-matching entry would reset the status to 404), route returns
an empty-body response with status 500; in particular a single matched
handler raising yields status 500 with empty body. -/
theorem C4_amended_last_entry_fails (lib : URLPatternLib) (routes : Registry) (req : Request)
    (table pre : List (String × Handler)) (p : String) (h : Handler) (err : JSError)
    (htable : mapGet req.method routes = some table)
    (hsplit : table = pre ++ [(p, h)])
    (hpre : ∀ e ∈ pre, skipped lib req e)
    (hmatch : lib.test p req.url = true)
    (herr : h { req := req, params := lib.exec p req.url } = Except.error err) :
    Router.route lib routes req = Except.ok (emptyResp 500) := by
  simp only [Router.route, htable]
  subst hsplit
  obtain ⟨s₁, hs⟩ := routeLoop_skip lib req [(p, h)] pre 405 hpre
  rw [hs, routeLoop_match_err lib req p h [] s₁ err hmatch herr]
  rfl

/-- Witness for the amended C4: a single registered pattern whose handler
throws yields an empty-body 500. -/
theorem C4_amended_last_entry_fails_witness :
    Router.route libOne (Router.get (JSValue.str "/a") hThrow emptyRouter).1 reqA =
      Except.ok (emptyResp 500) := by
  exact C4_amended_last_entry_fails libOne _ reqA [("/a", hThrow)] [] "/a" hThrow "TEST"
    rfl rfl (fun e he => absurd he (List.not_mem_nil e)) (by decide) rfl

/-- C5: registration throws "Invalid pathname" exactly when the supplied
pattern is not a non-empty string; every non-empty string is accepted
without error; and when it throws, the registry is left unmodified. -/
theorem C5_add_validation (method : String) (v : JSValue) (h : Handler) (routes : Registry) :
    ((Router.add method v h routes).2 = some "Invalid pathname" ↔
      ¬ ∃ s, v = JSValue.str s ∧ s ≠ "") ∧
    ((¬ ∃ s, v = JSValue.str s ∧ s ≠ "") → (Router.add method v h routes).1 = routes) ∧
    ((∃ s, v = JSValue.str s ∧ s ≠ "") → (Router.add method v h routes).2 = none) := by
  have hval : (∃ s, v = JSValue.str s ∧ s ≠ "") ↔ isInvalidPathname v = false := by
    cases v with
    | str s => by_cases hs : s = "" <;> simp [isInvalidPathname, hs]
    | nonString => simp [isInvalidPathname]
  by_cases hinv : isInvalidPathname v = true
  · have hadd : Router.add method v h routes = (routes, some "Invalid pathname") := by
      simp [Router.add, hinv]
    have hnex : ¬ ∃ s, v = JSValue.str s ∧ s ≠ "" := by
      intro hex
      rw [hval] at hex
      rw [hex] at hinv
      cases hinv
    rw [hadd]
    exact ⟨⟨fun _ => hnex, fun _ => rfl⟩, fun _ => rfl, fun hex => absurd hex hnex⟩
  · have hfalse : isInvalidPathname v = false := by simpa using hinv
    have hsnd : (Router.add method v h routes).2 = none := by
      simp only [Router.add, hfalse]
      simp only [Bool.false_eq_true, if_false]
      split <;> rfl
    have hex : ∃ s, v = JSValue.str s ∧ s ≠ "" := hval.mpr hfalse
    refine ⟨⟨fun hsome => ?_, fun hnex => absurd hex hnex⟩,
      fun hnex => absurd hex hnex, fun _ => hsnd⟩
    rw [hsnd] at hsome
    cases hsome

/-- Witness for C5: the empty-string pattern is rejected leaving the fresh
registry unchanged, and a non-empty pattern is accepted without error. -/
theorem C5_add_validation_witness :
    (Router.add "GET" (JSValue.str "") hThrow emptyRouter).2 = some "Invalid pathname" ∧
    (Router.add "GET" (JSValue.str "") hThrow emptyRouter).1 = emptyRouter ∧
    (Router.add "GET" (JSValue.str "/a") hThrow emptyRouter).2 = none := by
  have hempty := C5_add_validation "GET" (JSValue.str "") hThrow emptyRouter
  have hok := C5_add_validation "GET" (JSValue.str "/a") hThrow emptyRouter
  have hnex : ¬ ∃ s, JSValue.str "" = JSValue.str s ∧ s ≠ "" := by
    rintro ⟨s, hs, hne⟩
    cases hs
    exact hne rfl
  exact ⟨hempty.1.mpr hnex, hempty.2.1 hnex, hok.2.2 ⟨"/a", rfl, by decide⟩⟩

/-- C6: when the request's method has at least one registered pattern but
none of them matches the URL, route returns an empty-body 404 (each
non-matching entry sets `status = 404` and the loop continues). -/
theorem C6_no_match_404 (lib : URLPatternLib) (routes : Registry) (req : Request)
    (table : List (String × Handler))
    (htable : mapGet req.method routes = some table)
    (hne : table ≠ [])
    (hnm : ∀ e ∈ table, lib.test e.1 req.url = false) :
    Router.route lib routes req = Except.ok (emptyResp 404) := by
  simp only [Router.route, htable]
  exact routeLoop_nomatch lib req table hne hnm 405

/-- Witness for C6: one GET registration, request URL matching nothing,
status 404. -/
theorem C6_no_match_404_witness :
    Router.route libNone (Router.get (JSValue.str "/a") hThrow emptyRouter).1 reqA =
      Except.ok (emptyResp 404) := by
  exact C6_no_match_404 libNone _ reqA [("/a", hThrow)] rfl (List.cons_ne_nil _ _)
    (fun e _ => rfl)

/-- C7: when the request's method has zero registered patterns — its key
absent from the registry (any method other than GET/POST) or present with an
empty table — route returns an empty-body 405. -/
theorem C7_no_registrations_405 (lib : URLPatternLib) (routes : Registry) (req : Request)
    (hzero : mapGet req.method routes = none ∨ mapGet req.method routes = some []) :
    Router.route lib routes req = Except.ok (emptyResp 405) := by
  rcases hzero with hnone | hempty
  · simp only [Router.route, hnone]
    rfl
  · simp only [Router.route, hempty]
    rfl

/-- Witness for C7: a fresh router returns 405 both for GET (key present,
empty table) and for PUT (key absent). -/
theorem C7_no_registrations_405_witness :
    Router.route libNone emptyRouter reqA = Except.ok (emptyResp 405) ∧
    Router.route libNone emptyRouter { method := "PUT", url := urlA } =
      Except.ok (emptyResp 405) := by
  exact ⟨C7_no_registrations_405 libNone emptyRouter reqA (Or.inr rfl),
    C7_no_registrations_405 libNone emptyRouter { method := "PUT", url := urlA } (Or.inl rfl)⟩

/-- C8: `Router.static` registers, under GET, the static handler at the
trailing-capture pattern `${pathname}/:path*` (appended to the GET table),
and whenever opening/reading the resolved file fails the handler does not
raise: it returns a 404 response with body "Not Found". -/
theorem C8_static_registration_and_404 (pathname foldername : String) (fs : Fs)
    (routes : Registry) (ctx : Ctx) (ps : Params) (err : JSError)
    (hps : ctx.params = some ps)
    (hfail : fs.openRead ("./" ++ foldername ++ "/" ++ (mapGet "path" ps).getD "undefined") =
      Except.error err) :
    (∀ table, mapGet "GET" routes = some table →
      mapGet "GET" (Router.static pathname foldername fs routes).1 =
        some (mapSet (pathname ++ "/:path*") (staticHandler foldername fs) table)) ∧
    staticHandler foldername fs ctx =
      Except.ok { status := 404, body := some "Not Found", headers := [] } := by
  constructor
  · intro table htable
    have hvalid : isInvalidPathname (JSValue.str (pathname ++ "/:path*")) = false := by
      simp only [isInvalidPathname, decide_eq_false_iff_not]
      intro hcontra
      have hlen := congrArg String.length hcontra
      rw [String.length_append] at hlen
      have h7 : String.length "/:path*" = 7 := rfl
      rw [h7] at hlen
      simp at hlen
    simp only [Router.static, Router.add, hvalid, Bool.false_eq_true, if_false,
      pathnameStr, htable]
    exact mapGet_mapSet_self "GET" _ routes
  · simp [staticHandler, hps, hfail, Except.bind, bind]

/-- Witness for C8: serving from `"static"` over a failing filesystem — the
pattern `/static/:path*` is appended to the fresh GET table, and the handler
answers 404 "Not Found". -/
theorem C8_static_registration_and_404_witness :
    mapGet "GET" (Router.static "/static" "static" fsFail emptyRouter).1 =
      some [("/static/:path*", staticHandler "static" fsFail)] ∧
    staticHandler "static" fsFail { req := reqA, params := some [("path", "x")] } =
      Except.ok { status := 404, body := some "Not Found", headers := [] } := by
  have h := C8_static_registration_and_404 "/static" "static" fsFail emptyRouter
    { req := reqA, params := some [("path", "x")] } [("path", "x")] "NotFound" rfl rfl
  exact ⟨h.1 [] rfl, h.2⟩

/-- C9: registering a handler for a (method, pattern) pair already present
replaces the stored handler in place — the pattern keeps its position, every
other entry and the order of entries are unchanged, other methods' tables
are untouched, and no error is thrown. -/
theorem C9_overwrite_in_place (method p : String) (hOld hNew : Handler) (routes : Registry)
    (table pre post : List (String × Handler))
    (hp : p ≠ "")
    (htable : mapGet method routes = some table)
    (hsplit : table = pre ++ (p, hOld) :: post)
    (hfresh : ∀ e ∈ pre, e.1 ≠ p) :
    mapGet method (Router.add method (JSValue.str p) hNew routes).1 =
      some (pre ++ (p, hNew) :: post) ∧
    (∀ m, m ≠ method →
      mapGet m (Router.add method (JSValue.str p) hNew routes).1 = mapGet m routes) ∧
    (Router.add method (JSValue.str p) hNew routes).2 = none := by
  have hvalid : isInvalidPathname (JSValue.str p) = false := by
    simp [isInvalidPathname, hp]
  have hadd : Router.add method (JSValue.str p) hNew routes =
      (mapSet method (mapSet p hNew table) routes, none) := by
    simp [Router.add, hvalid, htable, pathnameStr]
  rw [hadd]
  subst hsplit
  refine ⟨?_, fun m hm => mapGet_mapSet_ne method m _ hm routes, rfl⟩
  rw [mapGet_mapSet_self, mapSet_present p hNew hOld pre post hfresh]

/-- Witness for C9: re-registering `/a` under GET replaces the throwing
handler with the succeeding one in place and leaves the POST table alone. -/
theorem C9_overwrite_in_place_witness :
    mapGet "GET" (Router.add "GET" (JSValue.str "/a") (hConst respLater)
      (Router.get (JSValue.str "/a") hThrow emptyRouter).1).1 =
      some [("/a", hConst respLater)] ∧
    mapGet "POST" (Router.add "GET" (JSValue.str "/a") (hConst respLater)
      (Router.get (JSValue.str "/a") hThrow emptyRouter).1).1 = some [] := by
  have h := C9_overwrite_in_place "GET" "/a" hThrow (hConst respLater)
    (Router.get (JSValue.str "/a") hThrow emptyRouter).1 [("/a", hThrow)] [] []
    (by decide) rfl rfl (fun e he => absurd he (List.not_mem_nil e))
  refine ⟨h.1, ?_⟩
  rw [h.2.1 "POST" (by decide)]
  rfl

/-- C10: for a method outside the supported set (its key absent from every
well-formed registry) and a valid non-empty pattern, registration succeeds
silently and is dead: the registry — hence every subsequent dispatch — is
completely unchanged. -/
theorem C10_unsupported_method_dead (method p : String) (h : Handler) (routes : Registry)
    (lib : URLPatternLib)
    (hwf : WellFormed routes)
    (hget : method ≠ "GET") (hpost : method ≠ "POST") (hp : p ≠ "") :
    Router.add method (JSValue.str p) h routes = (routes, none) ∧
    (∀ req, Router.route lib (Router.add method (JSValue.str p) h routes).1 req =
      Router.route lib routes req) := by
  have habs : mapGet method routes = none := by
    by_contra hc
    have hc₁ : mapHas method routes = true := Option.isSome_iff_ne_none.mpr hc
    rcases hwf method hc₁ with h1 | h1
    · exact hget h1
    · exact hpost h1
  have hvalid : isInvalidPathname (JSValue.str p) = false := by
    simp [isInvalidPathname, hp]
  have hadd : Router.add method (JSValue.str p) h routes = (routes, none) := by
    simp [Router.add, hvalid, habs]
  exact ⟨hadd, fun req => by rw [hadd]⟩

/-- Witness for C10: registering under the unsupported method PUT on a fresh
router changes nothing and leaves dispatch behavior identical. -/
theorem C10_unsupported_method_dead_witness :
    Router.add "PUT" (JSValue.str "/a") hThrow emptyRouter = (emptyRouter, none) ∧
    Router.route libOne (Router.add "PUT" (JSValue.str "/a") hThrow emptyRouter).1 reqA =
      Router.route libOne emptyRouter reqA := by
  have hwf : WellFormed emptyRouter := by
    intro m hm
    by_cases h1 : "GET" = m
    · exact Or.inl h1.symm
    · by_cases h2 : "POST" = m
      · exact Or.inr h2.symm
      · simp [mapHas, mapGet, emptyRouter, h1, h2] at hm
  have h := C10_unsupported_method_dead "PUT" "/a" hThrow emptyRouter libOne hwf
    (by decide) (by decide) (by decide)
  exact ⟨h.1, h.2 reqA⟩

end DenoRouter
